import Mathlib

/-!
Shallow embedding of the data-loading cache, filter engine and aggregation
algorithms of the `analise-dados` repository (`app.py`,
`app/repositories/cycle_repository.py`, `app/services/cycle_service.py`,
`app/dto/cycle_dto.py`).

Modelling conventions:
* pandas timestamps are naive calendar timestamps; they are modelled as a
  `Timestamp` structure ordered lexicographically (year, month, day, hour,
  minute) — the order pandas comparisons induce on in-range timestamps.
* numeric (float) columns are idealised as exact rationals `ℚ`; Python's
  `round(x, k)` / pandas `.round(k)` round-half-to-even is modelled exactly
  on `ℚ` by `rnd2` / `rnd1`, and a float division of the form `x / 0`
  (which pandas would render as `inf`/`NaN`) follows Lean's `ℚ` convention
  `x / 0 = 0`.
* a pandas DataFrame of cycle rows is a `List Row`; a missing value (`NaN`)
  in an optional column is `none`; `dropna` is a `List.filter` on `isSome`.
* pandas `groupby` enumerates the distinct keys in ascending key order and
  processes the fiber (sub-dataframe) of each key: modelled by `dedup` of
  the mapped keys, sorted by an insertion sort, with the fiber recovered by
  `List.filter`.
* `hash(tuple(sorted(files_info)))` in the fingerprint is modelled as the
  sorted list of descriptor strings itself (hash equality idealised as
  tuple equality, exactly the invariant §3 of the design states for
  `Fingerprint`).
* the Row Loader (`pd.read_excel`) is an external collaborator: each source
  file carries its load outcome (`Except` of rows) as data.
-/

/-- A naive calendar timestamp (`DataHoraInicio` after `pd.to_datetime`). -/
structure Timestamp where
  year : Nat
  month : Nat
  day : Nat
  hour : Nat
  minute : Nat
deriving DecidableEq, Repr

/-- pandas `<=` on timestamps: lexicographic on (year, month, day, hour, minute). -/
def tsLe (a b : Timestamp) : Bool :=
  decide (a.year < b.year) ||
    (decide (a.year = b.year) &&
      (decide (a.month < b.month) ||
        (decide (a.month = b.month) &&
          (decide (a.day < b.day) ||
            (decide (a.day = b.day) &&
              (decide (a.hour < b.hour) ||
                (decide (a.hour = b.hour) && decide (a.minute ≤ b.minute))))))))

/-- One haulage-cycle row with the columns `_load_excel_files` reads.
`DataHoraInicio` is `none` when `pd.to_datetime(..., errors='coerce')`
produced `NaT`; every other `none` is a `NaN` cell. -/
structure Row where
  dataHoraInicio : Option Timestamp
  tipoInput : Option String
  massa : Option ℚ
  tipoAtividade : Option String
  especificacaoMaterial : Option String
  material : Option String
  tagCarga : Option String
  frotaCarga : Option String
  frotaTransporte : Option String
deriving DecidableEq, Repr

/-- `df['AnoMes'] = df['DataHoraInicio'].dt.to_period('M')`: the (year, month) key. -/
def anoMesKey (r : Row) : Nat × Nat :=
  match r.dataHoraInicio with
  | some t => (t.year, t.month)
  | none => (0, 0)

/-- `df['Data'] = df['DataHoraInicio'].dt.date`: the (year, month, day) key. -/
def dataKey (r : Row) : Nat × Nat × Nat :=
  match r.dataHoraInicio with
  | some t => (t.year, t.month, t.day)
  | none => (0, 0, 0)

/-- `df['DataHora'] = df['DataHoraInicio'].dt.floor('h')`: the hour bucket. -/
def horaKey (r : Row) : Nat × Nat × Nat × Nat :=
  match r.dataHoraInicio with
  | some t => (t.year, t.month, t.day, t.hour)
  | none => (0, 0, 0, 0)

/-- The numeric value of the `Massa` cell (only read on rows that survived
`dropna(subset=[..., 'Massa', ...])`, where it is always present). -/
def massaVal (r : Row) : ℚ := r.massa.getD 0

/-- Membership of an optional cell in an inclusion list: `series.isin(vs)`
is `False` on a `NaN` cell. -/
def memOpt (c : Option String) (vs : List String) : Bool :=
  match c with
  | some v => decide (v ∈ vs)
  | none => false

/-! ### Generic list machinery: insertion sort (pandas' sorted group keys) -/

/-- Insert an element into a list, in front of the first element `y` with
`le x y`. -/
def insertBy {α : Type} (le : α → α → Bool) (x : α) : List α → List α
  | [] => [x]
  | y :: ys => if le x y then x :: y :: ys else y :: insertBy le x ys

/-- Insertion sort by a boolean comparison (models the ascending key order
of pandas `groupby` / `sort_values`). -/
def sortBy {α : Type} (le : α → α → Bool) : List α → List α
  | [] => []
  | x :: xs => insertBy le x (sortBy le xs)

theorem insertBy_perm {α : Type} (le : α → α → Bool) (x : α) :
    ∀ l : List α, List.Perm (insertBy le x l) (x :: l) := by
  intro l
  induction l with
  | nil => simp [insertBy]
  | cons y ys ih =>
    by_cases h : le x y = true
    · simp [insertBy, h]
    · simp only [insertBy, h, if_false, Bool.false_eq_true]
      exact (ih.cons y).trans (List.Perm.swap x y ys)

theorem sortBy_perm {α : Type} (le : α → α → Bool) :
    ∀ l : List α, List.Perm (sortBy le l) l := by
  intro l
  induction l with
  | nil => simp [sortBy]
  | cons x xs ih =>
    exact (insertBy_perm le x (sortBy le xs)).trans (ih.cons x)

theorem mem_sortBy {α : Type} {le : α → α → Bool} {x : α} {l : List α} :
    x ∈ sortBy le l ↔ x ∈ l :=
  (sortBy_perm le l).mem_iff

theorem sortBy_nodup {α : Type} {le : α → α → Bool} {l : List α}
    (h : l.Nodup) : (sortBy le l).Nodup :=
  (sortBy_perm le l).nodup_iff.mpr h

/-- Ascending order on month keys. -/
def monthLe (a b : Nat × Nat) : Bool :=
  decide (a.1 < b.1) || (decide (a.1 = b.1) && decide (a.2 ≤ b.2))

/-- Ascending order on day keys. -/
def dayLe (a b : Nat × Nat × Nat) : Bool :=
  decide (a.1 < b.1) ||
    (decide (a.1 = b.1) &&
      (decide (a.2.1 < b.2.1) || (decide (a.2.1 = b.2.1) && decide (a.2.2 ≤ b.2.2))))

/-- Ascending order on (month, category) grouping keys: month, then label. -/
def monthCatLe (a b : (Nat × Nat) × String) : Bool :=
  (decide (a.1.1 < b.1.1)) ||
    (decide (a.1 = b.1) && !decide (b.2 < a.2)) ||
    (decide (a.1.1 = b.1.1) && decide (a.1.2 < b.1.2))

/-- Ascending order on (day, equipment) grouping keys: day, then tag. -/
def dayTagLe (a b : (Nat × Nat × Nat) × String) : Bool :=
  (dayLe a.1 b.1 && !decide (a.1 = b.1)) || (decide (a.1 = b.1) && !decide (b.2 < a.2))

/-! ### Half-to-even rounding (`round(x, 2)` / `.round(2)` on exact values) -/

/-- Floor of a rational (numerator Euclidean-divided by the positive
denominator). -/
def ratFloor (q : ℚ) : ℤ := Int.ediv q.num (q.den : ℤ)

/-- Round a rational to the nearest integer, ties to even (Python's
`round` on exact values). -/
def roundHalfEven (q : ℚ) : ℤ :=
  let n := ratFloor q
  let r := q - (n : ℚ)
  if r < 1 / 2 then n
  else if 1 / 2 < r then n + 1
  else if n % 2 = 0 then n else n + 1

/-- `round(q, 2)`. -/
def rnd2 (q : ℚ) : ℚ := (roundHalfEven (q * 100) : ℚ) / 100

/-- `round(q, 1)`. -/
def rnd1 (q : ℚ) : ℚ := (roundHalfEven (q * 10) : ℚ) / 10

theorem ratFloor_intCast (n : ℤ) : ratFloor (n : ℚ) = n := by
  simp only [ratFloor, Rat.num_intCast, Rat.den_intCast, Nat.cast_one]
  exact Int.ediv_one n

theorem roundHalfEven_intCast (n : ℤ) : roundHalfEven (n : ℚ) = n := by
  simp only [roundHalfEven, ratFloor_intCast, sub_self]
  norm_num

/-- A rational that is an integer number of hundredths. -/
def IsCenti (q : ℚ) : Prop := ∃ n : ℤ, q = (n : ℚ) / 100

theorem rnd2_isCenti (q : ℚ) : IsCenti (rnd2 q) := ⟨roundHalfEven (q * 100), rfl⟩

theorem isCenti_add {a b : ℚ} (ha : IsCenti a) (hb : IsCenti b) : IsCenti (a + b) := by
  obtain ⟨m, rfl⟩ := ha
  obtain ⟨n, rfl⟩ := hb
  exact ⟨m + n, by push_cast; ring⟩

theorem isCenti_sum {l : List ℚ} (h : ∀ q ∈ l, IsCenti q) : IsCenti l.sum := by
  induction l with
  | nil => exact ⟨0, by norm_num⟩
  | cons a t ih =>
    rw [List.sum_cons]
    exact isCenti_add (h a (by simp)) (ih fun q hq => h q (by simp [hq]))

/-- Rounding to two decimals fixes a value that is already an integer
number of hundredths. -/
theorem rnd2_of_isCenti {q : ℚ} (h : IsCenti q) : rnd2 q = q := by
  obtain ⟨n, rfl⟩ := h
  have h100 : ((n : ℚ) / 100) * 100 = (n : ℚ) := by
    field_simp
  rw [rnd2, h100, roundHalfEven_intCast]

/-! ### Repository: fingerprint, loader, cache (`cycle_repository.py`) -/

/-- One `.xlsx` file in the source directory, with its `os.stat` data and
the outcome the Row Loader (`pd.read_excel`) would produce for it. -/
structure SrcFile where
  name : String
  size : Nat
  mtime : Nat
  load : Except String (List Row)

/-- The files currently in the `CicloDetalhado` directory. -/
abbrev FileSystem := List SrcFile

/-- Files kept after excluding Excel temp artifacts (`~$` prefix). -/
def eligibleFiles (fs : FileSystem) : List SrcFile :=
  fs.filter (fun f => !(f.name.startsWith "~$"))

/-- `f"{filename}:{stat.st_size}:{stat.st_mtime}"`. -/
def fileDescriptor (f : SrcFile) : String :=
  f.name ++ ":" ++ toString f.size ++ ":" ++ toString f.mtime

/-- String order used to sort the descriptor list. -/
def strLe (a b : String) : Bool := !decide (b < a)

/-- `hash(tuple(sorted(files_info)))`, with the hash idealised as the
sorted descriptor tuple itself. -/
def get_files_hash (fs : FileSystem) : List String :=
  sortBy strLe ((eligibleFiles fs).map fileDescriptor)

/-- Load every file in order; the first failing file aborts the whole load
(the Python loop re-raises). Row sets are concatenated in enumeration
order (`pd.concat`). -/
def loadAll : List SrcFile → Except String (List Row)
  | [] => .ok []
  | f :: rest =>
    match f.load with
    | .error e => .error e
    | .ok rows =>
      match loadAll rest with
      | .error e => .error e
      | .ok more => .ok (rows ++ more)

/-- The "no source data" error message of `_load_excel_files`. -/
def noDataMsg : String := "Nenhum arquivo Excel válido encontrado na pasta CicloDetalhado"

/-- `CycleRepository._load_excel_files`. -/
def load_excel_files (fs : FileSystem) : Except String (List Row) :=
  if (eligibleFiles fs).isEmpty then .error noDataMsg
  else loadAll (eligibleFiles fs)

/-- The mutable cache of `CycleRepository` (`processed_data` is never
written by any code path and `last_check` is only diagnostic; both are
omitted). -/
structure CacheState where
  rawData : Option (List Row)
  filesHash : Option (List String)
deriving DecidableEq

/-- `CycleRepository.get_raw_data`: returns the result, the cache state
afterwards, and whether the Row Loader was invoked. -/
def get_raw_data (fs : FileSystem) (st : CacheState) :
    Except String (List Row) × CacheState × Bool :=
  let currentHash := get_files_hash fs
  match st.rawData with
  | some cached =>
    if st.filesHash = some currentHash then (.ok cached, st, false)
    else
      match load_excel_files fs with
      | .ok d => (.ok d, ⟨some d, some currentHash⟩, true)
      | .error e => (.error e, st, true)
  | none =>
    match load_excel_files fs with
    | .ok d => (.ok d, ⟨some d, some currentHash⟩, true)
    | .error e => (.error e, st, true)

/-- Whether an `Except` is an error. -/
def exceptIsError {ε α : Type} : Except ε α → Bool
  | .error _ => true
  | .ok _ => false

/-! ### Filter engine -/

/-- `DateRangeDTO` (`cycle_dto.py`), with the validated date strings
already parsed to timestamps. -/
structure DateRangeDTO where
  data_inicio : Option Timestamp
  data_fim : Option Timestamp
  tipos_input : Option (List String)
  frota_transporte : Option (List String)
  frota_carga : Option (List String)
  tag_carga : Option (List String)

/-- An optional categorical inclusion filter: applied only when the list is
present and non-empty (Python truthiness of `None` and `[]`). -/
def filterInB (sel : Row → Option String) (o : Option (List String))
    (l : List Row) : List Row :=
  match o with
  | some vs => if vs.isEmpty then l else l.filter (fun r => memOpt (sel r) vs)
  | none => l

/-- `df = df[df['DataHoraInicio'] >= data_inicio_dt]` when a start date is given. -/
def filterGe (o : Option Timestamp) (l : List Row) : List Row :=
  match o with
  | some t0 =>
    l.filter (fun r =>
      match r.dataHoraInicio with
      | some t => tsLe t0 t
      | none => false)
  | none => l

/-- `df = df[df['DataHoraInicio'] <= data_fim_dt]` when an end date is given. -/
def filterLe (o : Option Timestamp) (l : List Row) : List Row :=
  match o with
  | some t1 =>
    l.filter (fun r =>
      match r.dataHoraInicio with
      | some t => tsLe t t1
      | none => false)
  | none => l

/-- `CycleService._apply_filters`: drop unparseable timestamps, date range,
then the `tipos_input` and `frota_transporte` inclusion filters. The DTO's
`frota_carga` and `tag_carga` lists are never consulted. -/
def apply_filters (df : List Row) (fs : DateRangeDTO) : List Row :=
  filterInB (fun r => r.frotaTransporte) fs.frota_transporte
    (filterInB (fun r => r.tipoInput) fs.tipos_input
      (filterLe fs.data_fim
        (filterGe fs.data_inicio
          (df.filter (fun r => r.dataHoraInicio.isSome)))))

/-! ### Legacy per-view filter pipelines (`app.py`)

Each legacy endpoint function drops its required-column `NaN`s first and
then applies the same date / `tipos_input` / `frota_transporte` filter
block (`get_processed_*`, `app.py`). -/

/-- Filter pipeline of `get_processed_productivity_analysis`:
`dropna(subset=['DataHoraInicio', 'Massa', 'Tipo Input'])` then the date,
`tipos_input` and `frota_transporte` filters. -/
def productivityFilter (df : List Row) (data_inicio data_fim : Option Timestamp)
    (tipos_input frota_transporte : Option (List String)) : List Row :=
  filterInB (fun r => r.frotaTransporte) frota_transporte
    (filterInB (fun r => r.tipoInput) tipos_input
      (filterLe data_fim
        (filterGe data_inicio
          (df.filter (fun r =>
            r.dataHoraInicio.isSome && r.massa.isSome && r.tipoInput.isSome)))))

/-- Filter pipeline of `get_processed_production_by_activity_type`:
`dropna(subset=['DataHoraInicio', 'Tipo de atividade', 'Massa', 'Tipo Input'])`
then the common filter block. -/
def activityFilter (df : List Row) (data_inicio data_fim : Option Timestamp)
    (tipos_input frota_transporte : Option (List String)) : List Row :=
  filterInB (fun r => r.frotaTransporte) frota_transporte
    (filterInB (fun r => r.tipoInput) tipos_input
      (filterLe data_fim
        (filterGe data_inicio
          (df.filter (fun r =>
            r.dataHoraInicio.isSome && r.tipoAtividade.isSome &&
              r.massa.isSome && r.tipoInput.isSome)))))

/-- Filter pipeline of `get_processed_production_by_material_spec`. -/
def materialSpecFilter (df : List Row) (data_inicio data_fim : Option Timestamp)
    (tipos_input frota_transporte : Option (List String)) : List Row :=
  filterInB (fun r => r.frotaTransporte) frota_transporte
    (filterInB (fun r => r.tipoInput) tipos_input
      (filterLe data_fim
        (filterGe data_inicio
          (df.filter (fun r =>
            r.dataHoraInicio.isSome && r.especificacaoMaterial.isSome &&
              r.massa.isSome && r.tipoInput.isSome)))))

/-- Filter pipeline of `get_processed_production_by_material`. -/
def materialFilter (df : List Row) (data_inicio data_fim : Option Timestamp)
    (tipos_input frota_transporte : Option (List String)) : List Row :=
  filterInB (fun r => r.frotaTransporte) frota_transporte
    (filterInB (fun r => r.tipoInput) tipos_input
      (filterLe data_fim
        (filterGe data_inicio
          (df.filter (fun r =>
            r.dataHoraInicio.isSome && r.material.isSome &&
              r.massa.isSome && r.tipoInput.isSome)))))

/-- Filter pipeline of `get_processed_production_by_frota_transporte`:
also drops placeholder fleets (`'-'` and blank-after-strip). -/
def frotaTransporteFilter (df : List Row) (data_inicio data_fim : Option Timestamp)
    (tipos_input frota_transporte : Option (List String)) : List Row :=
  filterInB (fun r => r.frotaTransporte) frota_transporte
    (filterInB (fun r => r.tipoInput) tipos_input
      (filterLe data_fim
        (filterGe data_inicio
          (((df.filter (fun r =>
              r.dataHoraInicio.isSome && r.frotaTransporte.isSome &&
                r.massa.isSome && r.tipoInput.isSome)).filter
            (fun r => !decide (r.frotaTransporte.getD "" = "-"))).filter
            (fun r => !decide ((r.frotaTransporte.getD "").trim = ""))))))

/-- Filter pipeline of `get_processed_productivity_by_equipment`: no
`tipos_input` filter; the `frota_transporte` filter is applied before the
date filters; placeholder `Tag carga` values are dropped. -/
def equipmentFilter (df : List Row) (data_inicio data_fim : Option Timestamp)
    (frota_transporte : Option (List String)) : List Row :=
  filterLe data_fim
    (filterGe data_inicio
      (filterInB (fun r => r.frotaTransporte) frota_transporte
        (((df.filter (fun r =>
            r.dataHoraInicio.isSome && r.massa.isSome && r.tagCarga.isSome)).filter
          (fun r => !decide (r.tagCarga.getD "" = "-"))).filter
          (fun r => !decide ((r.tagCarga.getD "").trim = "")))))

/-! ### Top-N consolidation (`get_processed_production_by_*`, `app.py`) -/

/-- Total mass per distinct category value over the whole filtered set
(`df.groupby(cat)['Massa'].sum()`; pandas enumerates the keys in
ascending order, here the first-occurrence order of `dedup` — the choice
only affects tie-breaking between equal totals, which the source leaves
unspecified via an unstable `sort_values`). -/
def categoryTotals (cat : Row → String) (rows : List Row) : List (String × ℚ) :=
  ((rows.map cat).dedup).map
    (fun c => (c, ((rows.filter (fun r => cat r = c)).map massaVal).sum))

/-- `totals.sort_values(ascending=False).head(top_n).index.tolist()`:
the top-N category labels by total mass. -/
def topCategories (cat : Row → String) (n : Nat) (rows : List Row) : List String :=
  ((sortBy (fun a b => decide (b.2 ≤ a.2)) (categoryTotals cat rows)).take n).map
    (fun p => p.1)

/-- `lambda x: x if x in top else 'Outros'`: the re-tagged category of a row. -/
def labelOf (cat : Row → String) (n : Nat) (rows : List Row) (r : Row) : String :=
  if cat r ∈ topCategories cat n rows then cat r else "Outros"

/-- One output record of a sum-by-category view. -/
structure ProdEntry where
  ano_mes : Nat × Nat
  categoria : String
  massa_total : ℚ
deriving DecidableEq, Repr

/-- The two-pass top-N consolidation shared by the four sum-by-category
views: global ranking, re-tagging, then
`groupby(['AnoMes', grouped])['Massa'].sum()` sorted by period then label. -/
def consolidateTopN (cat : Row → String) (n : Nat) (rows : List Row) : List ProdEntry :=
  (sortBy monthCatLe
      ((rows.map (fun r => (anoMesKey r, labelOf cat n rows r))).dedup)).map
    (fun k =>
      ⟨k.1, k.2,
        ((rows.filter (fun r => (anoMesKey r, labelOf cat n rows r) = k)).map
          massaVal).sum⟩)

/-- `get_processed_production_by_activity_type` (`app.py`): top 2 activity
types, the rest merged into `"Outros"`. -/
def get_processed_production_by_activity_type (df : List Row)
    (data_inicio data_fim : Option Timestamp)
    (tipos_input frota_transporte : Option (List String)) : List ProdEntry :=
  consolidateTopN (fun r => r.tipoAtividade.getD "") 2
    (activityFilter df data_inicio data_fim tipos_input frota_transporte)

/-- `get_processed_production_by_material_spec` (`app.py`): top 3. -/
def get_processed_production_by_material_spec (df : List Row)
    (data_inicio data_fim : Option Timestamp)
    (tipos_input frota_transporte : Option (List String)) : List ProdEntry :=
  consolidateTopN (fun r => r.especificacaoMaterial.getD "") 3
    (materialSpecFilter df data_inicio data_fim tipos_input frota_transporte)

/-- `get_processed_production_by_material` (`app.py`): top 3. -/
def get_processed_production_by_material (df : List Row)
    (data_inicio data_fim : Option Timestamp)
    (tipos_input frota_transporte : Option (List String)) : List ProdEntry :=
  consolidateTopN (fun r => r.material.getD "") 3
    (materialFilter df data_inicio data_fim tipos_input frota_transporte)

/-- `get_processed_production_by_frota_transporte` (`app.py`): top 3. -/
def get_processed_production_by_frota_transporte (df : List Row)
    (data_inicio data_fim : Option Timestamp)
    (tipos_input frota_transporte : Option (List String)) : List ProdEntry :=
  consolidateTopN (fun r => r.frotaTransporte.getD "") 3
    (frotaTransporteFilter df data_inicio data_fim tipos_input frota_transporte)

/-! ### Monthly productivity (`get_processed_productivity_analysis`, `app.py`) -/

/-- One record of the `daily_productivity` list. -/
structure DailyProd where
  data : Nat × Nat × Nat
  anoMes : Nat × Nat
  total_toneladas : ℚ
  horas_operacionais : Nat
  produtividade_ton_h : ℚ
  total_ciclos : Nat
deriving DecidableEq, Repr

/-- The per-day loop of `get_processed_productivity_analysis`: group by
`Data`; per day sum mass to tonnes, count distinct hour buckets, derive
ton/h (0 when no operational hour); store day values rounded to 2
decimals. -/
def dailyProductivity (rows : List Row) : List DailyProd :=
  (sortBy dayLe ((rows.map dataKey).dedup)).map (fun d =>
    let g := rows.filter (fun r => dataKey r = d)
    let total_toneladas := ((g.map massaVal).sum) / 1000
    let horas_operacionais := ((g.map horaKey).dedup).length
    let produtividade_ton_h :=
      if horas_operacionais > 0 then total_toneladas / (horas_operacionais : ℚ)
      else 0
    ⟨d, (d.1, d.2.1), rnd2 total_toneladas, horas_operacionais,
      rnd2 produtividade_ton_h, g.length⟩)

/-- One record of the monthly `productivity_metrics` result. -/
structure MonthlyProd where
  ano_mes : Nat × Nat
  toneladas_total : ℚ
  produtividade_media_ton_h : ℚ
  horas_operacionais_total : Nat
  total_ciclos : Nat
  crescimento_toneladas_pct : ℚ
  crescimento_prod_pct : ℚ
deriving DecidableEq, Repr

/-- `daily_df.groupby('AnoMes').agg({...}).round(2)`: per month, sum of the
daily tonnes, mean of the daily ton/h rates, sums of hours and cycles;
growth columns still to be filled. -/
def monthlyBase (daily : List DailyProd) : List MonthlyProd :=
  (sortBy monthLe ((daily.map (fun dp => dp.anoMes)).dedup)).map (fun m =>
    let g := daily.filter (fun dp => dp.anoMes = m)
    ⟨m, rnd2 ((g.map (fun dp => dp.total_toneladas)).sum),
      rnd2 (((g.map (fun dp => dp.produtividade_ton_h)).sum) / (g.length : ℚ)),
      (g.map (fun dp => dp.horas_operacionais)).sum,
      (g.map (fun dp => dp.total_ciclos)).sum, 0, 0⟩)

/-- `pct_change() * 100` on the tonnes and rate columns followed by
`fillna(0)`: the first period gets 0, each later period the relative
change against its predecessor. -/
def addGrowth : Option MonthlyProd → List MonthlyProd → List MonthlyProd
  | _, [] => []
  | none, x :: xs =>
    { x with crescimento_toneladas_pct := 0, crescimento_prod_pct := 0 } ::
      addGrowth (some x) xs
  | some p, x :: xs =>
    { x with
      crescimento_toneladas_pct :=
        (x.toneladas_total - p.toneladas_total) / p.toneladas_total * 100,
      crescimento_prod_pct :=
        (x.produtividade_media_ton_h - p.produtividade_media_ton_h) /
          p.produtividade_media_ton_h * 100 } ::
      addGrowth (some x) xs

/-- The aggregation core of `get_processed_productivity_analysis` applied
to the already-filtered rows. -/
def productivityAnalysisCore (rows : List Row) : List MonthlyProd :=
  addGrowth none (monthlyBase (dailyProductivity rows))

/-- `get_processed_productivity_analysis` (`app.py`). -/
def get_processed_productivity_analysis (df : List Row)
    (data_inicio data_fim : Option Timestamp)
    (tipos_input frota_transporte : Option (List String)) : List MonthlyProd :=
  productivityAnalysisCore
    (productivityFilter df data_inicio data_fim tipos_input frota_transporte)

/-! ### Per-equipment daily productivity
(`get_processed_productivity_by_equipment`, `app.py`) -/

/-- One output record of the per-equipment daily view. -/
structure EquipEntry where
  data : Nat × Nat × Nat
  equipamento : String
  total_toneladas : ℚ
  horas_operacionais : Nat
  toneladas_por_hora : ℚ
  total_ciclos : Nat
  ciclos_por_hora : ℚ
deriving DecidableEq, Repr

/-- `get_processed_productivity_by_equipment` (`app.py`): group by
(`Data`, `Tag carga`); per group sum mass to tonnes, count distinct hour
buckets, derive ton/h and cycles/h (0 when no operational hour); sorted by
day then equipment. -/
def get_processed_productivity_by_equipment (df : List Row)
    (data_inicio data_fim : Option Timestamp)
    (frota_transporte : Option (List String)) : List EquipEntry :=
  let rows := equipmentFilter df data_inicio data_fim frota_transporte
  (sortBy dayTagLe
      ((rows.map (fun r => (dataKey r, r.tagCarga.getD ""))).dedup)).map
    (fun k =>
      let g := rows.filter (fun r => (dataKey r, r.tagCarga.getD "") = k)
      let total_toneladas := ((g.map massaVal).sum) / 1000
      let horas_operacionais := ((g.map horaKey).dedup).length
      let toneladas_por_hora :=
        if horas_operacionais > 0 then total_toneladas / (horas_operacionais : ℚ)
        else 0
      ⟨k.1, k.2, rnd2 total_toneladas, horas_operacionais,
        rnd2 toneladas_por_hora, g.length,
        rnd1 (if horas_operacionais > 0 then (g.length : ℚ) / (horas_operacionais : ℚ)
          else 0)⟩)

/-! ### Service-layer monthly productivity
(`CycleService.get_productivity_analysis`, `cycle_service.py`) -/

/-- One record of the service-layer productivity result
(`ProductivityDataDTO`). -/
structure ServiceProdEntry where
  ano_mes : Nat × Nat
  toneladas_total : ℚ
  produtividade_media_ton_h : ℚ
  crescimento_toneladas_pct : ℚ
  horas_trabalhadas : ℚ
deriving DecidableEq, Repr

/-- Builds the service records from the sorted (month, mass-sum) pairs:
`horas_trabalhadas = 24 * 30`, `produtividade = massa / 1000 / horas`,
`crescimento = pct_change(massa) * 100` with the first period filled
with 0, `toneladas_total = massa / 1000`. -/
def serviceGrowth : Option ℚ → List ((Nat × Nat) × ℚ) → List ServiceProdEntry
  | _, [] => []
  | prev, (m, massa) :: rest =>
    ⟨m, massa / 1000, massa / 1000 / (24 * 30),
      (match prev with
       | none => 0
       | some pm => (massa - pm) / pm * 100),
      24 * 30⟩ :: serviceGrowth (some massa) rest

/-- `CycleService.get_productivity_analysis`: apply the service filters,
drop rows missing `DataHoraInicio`/`Massa`/`Tipo Input`, sum mass per
month, and derive productivity from a constant 24 h × 30 d working month. -/
def get_productivity_analysis (df : List Row) (fs : DateRangeDTO) :
    List ServiceProdEntry :=
  let d := (apply_filters df fs).filter (fun r =>
    r.dataHoraInicio.isSome && r.massa.isSome && r.tipoInput.isSome)
  serviceGrowth none
    ((sortBy monthLe ((d.map anoMesKey).dedup)).map (fun m =>
      (m, ((d.filter (fun r => anoMesKey r = m)).map massaVal).sum)))

/-! ### Generic list lemmas used by the claim proofs -/

theorem filter_filter_and {α : Type} (p q : α → Bool) (l : List α) :
    (l.filter p).filter q = l.filter (fun a => p a && q a) := by
  induction l with
  | nil => rfl
  | cons a t ih =>
    by_cases hp : p a = true <;> by_cases hq : q a = true <;>
      simp [List.filter_cons, hp, hq, ih]

theorem filter_congr_mem {α : Type} {p q : α → Bool} {l : List α}
    (h : ∀ a ∈ l, p a = q a) : l.filter p = l.filter q := by
  induction l with
  | nil => rfl
  | cons a t ih =>
    have ha := h a (by simp)
    by_cases hp : p a = true
    · simp [List.filter_cons, hp, ha ▸ hp, ih fun a ha => h a (by simp [ha])]
    · have hq : ¬q a = true := fun hc => hp (ha ▸ hc)
      simp [List.filter_cons, hp, hq, ih fun a ha => h a (by simp [ha])]

theorem map_congr_mem {α β : Type} {f g : α → β} {l : List α}
    (h : ∀ a ∈ l, f a = g a) : l.map f = l.map g := by
  induction l with
  | nil => rfl
  | cons a t ih =>
    simp [List.map_cons, h a (by simp), ih fun a ha => h a (by simp [ha])]

theorem filter_of_map {α β : Type} (f : α → β) (p : β → Bool) (l : List α) :
    (l.map f).filter p = (l.filter (fun a => p (f a))).map f := by
  induction l with
  | nil => rfl
  | cons a t ih =>
    by_cases hp : p (f a) = true <;> simp [List.filter_cons, hp, ih]

theorem filter_all_true {α : Type} {p : α → Bool} {l : List α}
    (h : ∀ a ∈ l, p a = true) : l.filter p = l := by
  induction l with
  | nil => rfl
  | cons a t ih =>
    simp [List.filter_cons, h a (by simp), ih fun a ha => h a (by simp [ha])]

/-- Splitting a mass sum over a disjunction of disjoint predicates. -/
theorem sum_map_filter_disj {α : Type} (mv : α → ℚ) (p q : α → Bool) :
    ∀ l : List α, (∀ a ∈ l, ¬(p a = true ∧ q a = true)) →
      ((l.filter (fun a => p a || q a)).map mv).sum
        = ((l.filter p).map mv).sum + ((l.filter q).map mv).sum := by
  intro l
  induction l with
  | nil => simp
  | cons a t ih =>
    intro hd
    have ht := ih fun x hx => hd x (by simp [hx])
    by_cases hp : p a = true <;> by_cases hq : q a = true
    · exact absurd ⟨hp, hq⟩ (hd a (by simp))
    · simp only [List.filter_cons, hp, hq, Bool.true_or, if_true, if_false,
        Bool.false_eq_true, List.map_cons, List.sum_cons, ht]
      ring
    · simp only [List.filter_cons, hp, hq, Bool.false_or, if_true, if_false,
        Bool.false_eq_true, List.map_cons, List.sum_cons, ht]
      ring
    · simp only [List.filter_cons, hp, hq, Bool.false_or, if_false,
        Bool.false_eq_true, ht]

/-- Summing the per-key fiber sums over a duplicate-free key list equals the
mass of the rows whose key belongs to the list. -/
theorem sum_fibers_eq_filter_mem {α K : Type} [DecidableEq K]
    (mv : α → ℚ) (g : α → K) (l : List α) :
    ∀ ks : List K, ks.Nodup →
      (ks.map (fun k => ((l.filter (fun a => g a = k)).map mv).sum)).sum
        = ((l.filter (fun a => decide (g a ∈ ks))).map mv).sum := by
  intro ks
  induction ks with
  | nil => intro _; simp
  | cons k t ih =>
    intro hnd
    have hk : k ∉ t := (List.nodup_cons.mp hnd).1
    have ht := ih (List.nodup_cons.mp hnd).2
    have hcongr : l.filter (fun a => decide (g a ∈ k :: t))
        = l.filter (fun a => decide (g a = k) || decide (g a ∈ t)) := by
      refine filter_congr_mem fun a _ => ?_
      simp [List.mem_cons]
    rw [List.map_cons, List.sum_cons, ht, hcongr,
      sum_map_filter_disj mv _ _ l fun a _ hpq => by
        have h1 : g a = k := of_decide_eq_true hpq.1
        have h2 : g a ∈ t := of_decide_eq_true hpq.2
        exact hk (h1 ▸ h2)]

/-- Fiber sums over the full deduplicated key list add up to the total. -/
theorem sum_fibers_dedup {α K : Type} [DecidableEq K]
    (mv : α → ℚ) (g : α → K) (l : List α) :
    (((l.map g).dedup).map
        (fun k => ((l.filter (fun a => g a = k)).map mv).sum)).sum
      = (l.map mv).sum := by
  rw [sum_fibers_eq_filter_mem mv g l _ (List.nodup_dedup _)]
  have : l.filter (fun a => decide (g a ∈ (l.map g).dedup)) = l :=
    filter_all_true fun a ha => by
      simp only [decide_eq_true_eq, List.mem_dedup]
      exact List.mem_map_of_mem g ha
  rw [this]

/-! ### Filter-engine lemmas -/

theorem filterInB_mono {sel : Row → Option String} {o : Option (List String)}
    {l l' : List Row} (h : l.Sublist l') :
    (filterInB sel o l).Sublist (filterInB sel o l') := by
  cases o with
  | none => exact h
  | some vs =>
    simp only [filterInB]
    split
    · exact h
    · exact h.filter _

theorem filterInB_sublist {sel : Row → Option String} {o : Option (List String)}
    {l : List Row} : (filterInB sel o l).Sublist l := by
  cases o with
  | none => exact List.Sublist.refl l
  | some vs =>
    simp only [filterInB]
    split
    · exact List.Sublist.refl l
    · exact List.filter_sublist l

theorem filterGe_mono {o : Option Timestamp} {l l' : List Row}
    (h : l.Sublist l') : (filterGe o l).Sublist (filterGe o l') := by
  cases o with
  | none => exact h
  | some t => exact h.filter _

theorem filterGe_sublist {o : Option Timestamp} {l : List Row} :
    (filterGe o l).Sublist l := by
  cases o with
  | none => exact List.Sublist.refl l
  | some t => exact List.filter_sublist l

theorem filterLe_mono {o : Option Timestamp} {l l' : List Row}
    (h : l.Sublist l') : (filterLe o l).Sublist (filterLe o l') := by
  cases o with
  | none => exact h
  | some t => exact h.filter _

theorem filterLe_sublist {o : Option Timestamp} {l : List Row} :
    (filterLe o l).Sublist l := by
  cases o with
  | none => exact List.Sublist.refl l
  | some t => exact List.filter_sublist l

/-! ### Concrete example data -/

/-- Abbreviated row constructor for examples: timestamp, input type, mass,
activity type. -/
def mkRow (t : Option Timestamp) (ti : Option String) (ma : Option ℚ)
    (ta : Option String) : Row :=
  ⟨t, ti, ma, ta, none, none, none, none, none⟩

/-- Spec scenario for monthly productivity: 3 rows on 2024-01-15 with
masses [1000, 2000, 3000] kg spanning hour buckets 10:00 and 11:00. -/
def c1rows : List Row :=
  [mkRow (some ⟨2024, 1, 15, 10, 0⟩) (some "X") (some 1000) none,
   mkRow (some ⟨2024, 1, 15, 10, 30⟩) (some "X") (some 2000) none,
   mkRow (some ⟨2024, 1, 15, 11, 15⟩) (some "X") (some 3000) none]

/-- A single row of 1 kg: its exact daily tonnage 0.001 t is rounded away
by the 2-decimal rounding inside the aggregation. -/
def c1tinyRow : Row := mkRow (some ⟨2024, 1, 15, 10, 0⟩) (some "X") (some 1) none

/-- Two days in one month: day 1 hauls 2 t over 2 operational hours
(rate 1), day 2 hauls 8 t in 1 hour (rate 8); the mean of the daily rates
(4.5) differs from monthly tonnes / monthly hours (10/3). -/
def c1twoDays : List Row :=
  [mkRow (some ⟨2024, 1, 1, 10, 0⟩) (some "X") (some 1000) none,
   mkRow (some ⟨2024, 1, 1, 11, 0⟩) (some "X") (some 1000) none,
   mkRow (some ⟨2024, 1, 2, 10, 0⟩) (some "X") (some 8000) none]

/-- Spec scenario for top-N consolidation: activity types A (500 kg),
B (300 kg), C (100 kg) in one month. -/
def c2rows : List Row :=
  [mkRow (some ⟨2024, 1, 10, 8, 0⟩) (some "X") (some 500) (some "A"),
   mkRow (some ⟨2024, 1, 11, 9, 0⟩) (some "X") (some 300) (some "B"),
   mkRow (some ⟨2024, 1, 12, 10, 0⟩) (some "X") (some 100) (some "C")]

/-- A row whose `Tag carga` is `"T1"`. -/
def c3exRow : Row :=
  ⟨some ⟨2024, 1, 15, 10, 0⟩, some "X", none, none, none, none,
    some "T1", some "F1", some "FT1"⟩

/-- A filter whose only restriction is `tag_carga = ["T2"]`. -/
def c3exFilter : DateRangeDTO := ⟨none, none, none, none, none, some ["T2"]⟩

/-- Two rows, of which only the first matches all of `c8fs`'s filters. -/
def c8df : List Row :=
  [⟨some ⟨2024, 2, 10, 9, 0⟩, some "A", some 10, none, none, none, none, none,
     some "F1"⟩,
   ⟨some ⟨2024, 5, 10, 9, 0⟩, some "B", some 20, none, none, none, none, none,
     some "F2"⟩]

/-- A filter specification with every applied filter enabled and
`dateStart <= dateEnd`. -/
def c8fs : DateRangeDTO :=
  ⟨some ⟨2024, 1, 1, 0, 0⟩, some ⟨2024, 3, 1, 0, 0⟩, some ["A"], some ["F1"],
    none, none⟩

/-- One row of 720 000 kg hauled within a single hour bucket: the legacy
monthly productivity reports 720 t/h while the service layer reports
720 t / (24 × 30) h = 1 t/h. -/
def c10row : Row := mkRow (some ⟨2024, 1, 15, 10, 30⟩) (some "X") (some 720000) none

/-- The empty filter specification. -/
def emptyFilter : DateRangeDTO := ⟨none, none, none, none, none, none⟩

/-- Two cycles of equipment E1 on 2024-01-15, both in hour bucket 10:00. -/
def c9rows : List Row :=
  [⟨some ⟨2024, 1, 15, 10, 0⟩, some "X", some 1000, none, none, none,
     some "E1", none, none⟩,
   ⟨some ⟨2024, 1, 15, 10, 30⟩, some "X", some 2000, none, none, none,
     some "E1", none, none⟩]

/-! ### C3 — categorical filters of `_apply_filters` -/

/-- C3: the claim states that all four categorical filters (`tipos_input`,
`frota_transporte`, `frota_carga`, `tag_carga`) restrict `_apply_filters`'s
result. In the code only the first two are applied: the result is
invariant under the `frota_carga` and `tag_carga` fields, and on a
one-row dataset whose `Tag carga` is `"T1"` a `tag_carga = ["T2"]` filter
leaves the row in place even though its tag is not a member of the set. -/
theorem c3_loading_filters_ignored :
    (∀ (df : List Row) (fs : DateRangeDTO) (fc tc : Option (List String)),
      apply_filters df { fs with frota_carga := fc, tag_carga := tc }
        = apply_filters df fs) ∧
    apply_filters [c3exRow] c3exFilter = [c3exRow] ∧
    memOpt c3exRow.tagCarga ["T2"] = false := by
  refine ⟨fun df fs fc tc => rfl, ?_, ?_⟩
  · with_unfolding_all rfl
  · with_unfolding_all rfl

/-! ### C8 — adding a filter is monotone -/

/-- C8: for every dataset and `FilterSpec` with `dateStart <= dateEnd`,
enabling an additional filter (either date bound, or either applied
categorical inclusion set) yields a sublist — hence a subset — of the
result without it, so the filtered row count never increases. -/
theorem c8_filter_monotone (df : List Row) (fs : DateRangeDTO)
    (hrange : ∀ a b, fs.data_inicio = some a → fs.data_fim = some b →
      tsLe a b = true) :
    ((apply_filters df fs).Sublist
        (apply_filters df { fs with data_inicio := none }) ∧
      (apply_filters df fs).Sublist
        (apply_filters df { fs with data_fim := none }) ∧
      (apply_filters df fs).Sublist
        (apply_filters df { fs with tipos_input := none }) ∧
      (apply_filters df fs).Sublist
        (apply_filters df { fs with frota_transporte := none })) ∧
    ((apply_filters df fs).length ≤
        (apply_filters df { fs with data_inicio := none }).length ∧
      (apply_filters df fs).length ≤
        (apply_filters df { fs with data_fim := none }).length ∧
      (apply_filters df fs).length ≤
        (apply_filters df { fs with tipos_input := none }).length ∧
      (apply_filters df fs).length ≤
        (apply_filters df { fs with frota_transporte := none }).length) := by
  have h1 : (apply_filters df fs).Sublist
      (apply_filters df { fs with data_inicio := none }) :=
    filterInB_mono (filterInB_mono (filterLe_mono filterGe_sublist))
  have h2 : (apply_filters df fs).Sublist
      (apply_filters df { fs with data_fim := none }) :=
    filterInB_mono (filterInB_mono filterLe_sublist)
  have h3 : (apply_filters df fs).Sublist
      (apply_filters df { fs with tipos_input := none }) :=
    filterInB_mono filterInB_sublist
  have h4 : (apply_filters df fs).Sublist
      (apply_filters df { fs with frota_transporte := none }) :=
    filterInB_sublist
  exact ⟨⟨h1, h2, h3, h4⟩,
    h1.length_le, h2.length_le, h3.length_le, h4.length_le⟩

/-- Witness for C8 at a concrete dataset and fully-populated filter. -/
theorem c8_witness :
    ((apply_filters c8df c8fs).Sublist
        (apply_filters c8df { c8fs with data_inicio := none }) ∧
      (apply_filters c8df c8fs).Sublist
        (apply_filters c8df { c8fs with data_fim := none }) ∧
      (apply_filters c8df c8fs).Sublist
        (apply_filters c8df { c8fs with tipos_input := none }) ∧
      (apply_filters c8df c8fs).Sublist
        (apply_filters c8df { c8fs with frota_transporte := none })) ∧
    ((apply_filters c8df c8fs).length ≤
        (apply_filters c8df { c8fs with data_inicio := none }).length ∧
      (apply_filters c8df c8fs).length ≤
        (apply_filters c8df { c8fs with data_fim := none }).length ∧
      (apply_filters c8df c8fs).length ≤
        (apply_filters c8df { c8fs with tipos_input := none }).length ∧
      (apply_filters c8df c8fs).length ≤
        (apply_filters c8df { c8fs with frota_transporte := none }).length) :=
  c8_filter_monotone c8df c8fs (fun a b ha hb => by
    rw [← Option.some.inj ha, ← Option.some.inj hb]
    rfl)

/-! ### C4 / C5 — Dataset Cache -/

theorem loadAll_error_of_exists :
    ∀ l : List SrcFile, (∃ f ∈ l, exceptIsError f.load = true) →
      ∃ e, loadAll l = .error e := by
  intro l
  induction l with
  | nil => rintro ⟨f, hf, _⟩; exact absurd hf (List.not_mem_nil f)
  | cons f t ih =>
    rintro ⟨g, hg, hge⟩
    cases hload : f.load with
    | error e => exact ⟨e, by simp [loadAll, hload]⟩
    | ok rows =>
      have hgt : g ∈ t := by
        rcases List.mem_cons.mp hg with h | h
        · subst h
          rw [hload] at hge
          simp [exceptIsError] at hge
        · exact h
      obtain ⟨e, he⟩ := ih ⟨g, hgt, hge⟩
      exact ⟨e, by simp [loadAll, hload, he]⟩

/-- C4: when the cache cannot be reused and the reload fails — because
there is no eligible source file, or because some eligible file fails to
load — `get_raw_data` surfaces an error (the "no source data" error in the
empty case) and leaves the cache state, including any previously cached
dataset and fingerprint, exactly as it was; in particular no partial
dataset is stored. -/
theorem c4_failed_reload_preserves_cache (fs : FileSystem) (st : CacheState)
    (hmiss : ¬(st.rawData ≠ none ∧ st.filesHash = some (get_files_hash fs)))
    (hbad : eligibleFiles fs = [] ∨ ∃ f ∈ eligibleFiles fs, exceptIsError f.load = true) :
    (∃ e, (get_raw_data fs st).1 = .error e) ∧
    (get_raw_data fs st).2.1 = st ∧
    (eligibleFiles fs = [] → (get_raw_data fs st).1 = .error noDataMsg) := by
  have hload : ∃ e, load_excel_files fs = .error e ∧
      (eligibleFiles fs = [] → e = noDataMsg) := by
    by_cases hemp : eligibleFiles fs = []
    · refine ⟨noDataMsg, ?_, fun _ => rfl⟩
      simp [load_excel_files, hemp]
    · rcases hbad with h | h
      · exact absurd h hemp
      · obtain ⟨e, he⟩ := loadAll_error_of_exists _ h
        refine ⟨e, ?_, fun hc => absurd hc hemp⟩
        have : (eligibleFiles fs).isEmpty = false :=
          List.isEmpty_eq_false.mpr hemp
        simp [load_excel_files, this, he]
  obtain ⟨e, he, hemsg⟩ := hload
  cases hrd : st.rawData with
  | none =>
    refine ⟨⟨e, ?_⟩, ?_, fun hemp => ?_⟩
    · simp [get_raw_data, hrd, he]
    · simp [get_raw_data, hrd, he]
    · simp [get_raw_data, hrd, he, hemsg hemp]
  | some cached =>
    have hne : st.filesHash ≠ some (get_files_hash fs) := by
      intro hc
      exact hmiss ⟨by simp [hrd], hc⟩
    refine ⟨⟨e, ?_⟩, ?_, fun hemp => ?_⟩
    · simp [get_raw_data, hrd, hne, he]
    · simp [get_raw_data, hrd, hne, he]
    · simp [get_raw_data, hrd, hne, he, hemsg hemp]

/-- Witness for C4: an empty directory and a warm cache. A previously
cached one-row dataset under a different fingerprint stays in place and
the "no source data" error is raised. -/
theorem c4_witness :
    (∃ e, (get_raw_data [] ⟨some [c3exRow], some ["f:1:1"]⟩).1 = .error e) ∧
    (get_raw_data [] ⟨some [c3exRow], some ["f:1:1"]⟩).2.1 =
      ⟨some [c3exRow], some ["f:1:1"]⟩ ∧
    (get_raw_data [] ⟨some [c3exRow], some ["f:1:1"]⟩).1 = .error noDataMsg := by
  have h := c4_failed_reload_preserves_cache [] ⟨some [c3exRow], some ["f:1:1"]⟩
    (fun h => by
      have := h.2
      simp [get_files_hash, eligibleFiles, sortBy] at this)
    (Or.inl rfl)
  exact ⟨h.1, h.2.1, h.2.2 rfl⟩

/-- C5: if a `get_raw_data` call succeeds, a second call against an
unchanged file set (hence an unchanged fingerprint) reuses the cache: it
returns exactly the dataset the first call produced, leaves the state
untouched, and does not invoke the Row Loader. -/
theorem c5_cache_reuse (fs : FileSystem) (st : CacheState) (d : List Row)
    (h : (get_raw_data fs st).1 = .ok d) :
    get_raw_data fs ((get_raw_data fs st).2.1) =
      (.ok d, (get_raw_data fs st).2.1, false) := by
  cases hrd : st.rawData with
  | some cached =>
    by_cases hh : st.filesHash = some (get_files_hash fs)
    · have h1 : get_raw_data fs st = (.ok cached, st, false) := by
        simp [get_raw_data, hrd, hh]
      rw [h1] at h ⊢
      have hcd : cached = d := by
        simpa using h
      subst hcd
      simp [get_raw_data, hrd, hh]
    · cases hload : load_excel_files fs with
      | ok d' =>
        have h1 : get_raw_data fs st =
            (.ok d', ⟨some d', some (get_files_hash fs)⟩, true) := by
          simp [get_raw_data, hrd, hh, hload]
        rw [h1] at h ⊢
        have hcd : d' = d := by simpa using h
        subst hcd
        simp [get_raw_data]
      | error e =>
        have h1 : (get_raw_data fs st).1 = .error e := by
          simp [get_raw_data, hrd, hh, hload]
        rw [h1] at h
        simp at h
  | none =>
    cases hload : load_excel_files fs with
    | ok d' =>
      have h1 : get_raw_data fs st =
          (.ok d', ⟨some d', some (get_files_hash fs)⟩, true) := by
        simp [get_raw_data, hrd, hload]
      rw [h1] at h ⊢
      have hcd : d' = d := by simpa using h
      subst hcd
      simp [get_raw_data]
    | error e =>
      have h1 : (get_raw_data fs st).1 = .error e := by
        simp [get_raw_data, hrd, hload]
      rw [h1] at h
      simp at h

/-- Witness for C5: one eligible file loading a single row, starting from
a cold cache. -/
theorem c5_witness :
    get_raw_data [⟨"a.xlsx", 10, 5, .ok [c3exRow]⟩]
        ((get_raw_data [⟨"a.xlsx", 10, 5, .ok [c3exRow]⟩] ⟨none, none⟩).2.1) =
      (.ok [c3exRow],
        (get_raw_data [⟨"a.xlsx", 10, 5, .ok [c3exRow]⟩] ⟨none, none⟩).2.1,
        false) :=
  c5_cache_reuse [⟨"a.xlsx", 10, 5, .ok [c3exRow]⟩] ⟨none, none⟩ [c3exRow]
    (by with_unfolding_all rfl)

/-! ### C7 — month-over-month growth -/

/-- Two rows in different months (1 t at 1 t/h, then 3 t at 3 t/h). -/
def c7rows : List Row :=
  [mkRow (some ⟨2024, 1, 10, 10, 0⟩) (some "X") (some 1000) none,
   mkRow (some ⟨2024, 2, 10, 10, 0⟩) (some "X") (some 3000) none]

theorem addGrowth_head_zero :
    ∀ (l : List MonthlyProd) (e : MonthlyProd),
      (addGrowth none l)[0]? = some e →
      e.crescimento_toneladas_pct = 0 ∧ e.crescimento_prod_pct = 0 := by
  intro l e h
  cases l with
  | nil => simp [addGrowth] at h
  | cons x xs =>
    simp only [addGrowth, List.getElem?_cons_zero, Option.some.injEq] at h
    rw [← h]
    exact ⟨rfl, rfl⟩

theorem addGrowth_pct_rel :
    ∀ (l : List MonthlyProd) (p : Option MonthlyProd) (i : Nat)
      (ep ec : MonthlyProd),
      (addGrowth p l)[i]? = some ep → (addGrowth p l)[i + 1]? = some ec →
      ec.crescimento_toneladas_pct =
        (ec.toneladas_total - ep.toneladas_total) / ep.toneladas_total * 100 ∧
      ec.crescimento_prod_pct =
        (ec.produtividade_media_ton_h - ep.produtividade_media_ton_h) /
          ep.produtividade_media_ton_h * 100 := by
  intro l
  induction l with
  | nil =>
    intro p i ep ec h0 _
    cases p <;> simp [addGrowth] at h0
  | cons x xs ih =>
    intro p i ep ec h0 h1
    cases i with
    | zero =>
      cases xs with
      | nil =>
        cases p <;> simp [addGrowth] at h1
      | cons y ys =>
        cases p with
        | none =>
          simp only [addGrowth, List.getElem?_cons_zero, Option.some.injEq,
            List.getElem?_cons_succ] at h0 h1
          rw [← h0, ← h1]
          exact ⟨rfl, rfl⟩
        | some q =>
          simp only [addGrowth, List.getElem?_cons_zero, Option.some.injEq,
            List.getElem?_cons_succ] at h0 h1
          rw [← h0, ← h1]
          exact ⟨rfl, rfl⟩
    | succ j =>
      cases p with
      | none =>
        simp only [addGrowth, List.getElem?_cons_succ] at h0 h1
        exact ih (some x) j ep ec h0 h1
      | some q =>
        simp only [addGrowth, List.getElem?_cons_succ] at h0 h1
        exact ih (some x) j ep ec h0 h1

/-- C7: in the monthly-productivity output (already in ascending period
order), the first record of any non-empty result has both growth measures
exactly 0, and every record with a predecessor carries
`(current - previous) / previous * 100` for both the tonnes total and the
average rate, computed from the output's own (rounded) monthly values. -/
theorem c7_growth_formula (rows : List Row) :
    (∀ e : MonthlyProd, (productivityAnalysisCore rows)[0]? = some e →
      e.crescimento_toneladas_pct = 0 ∧ e.crescimento_prod_pct = 0) ∧
    (∀ (i : Nat) (ep ec : MonthlyProd),
      (productivityAnalysisCore rows)[i]? = some ep →
      (productivityAnalysisCore rows)[i + 1]? = some ec →
      ec.crescimento_toneladas_pct =
        (ec.toneladas_total - ep.toneladas_total) / ep.toneladas_total * 100 ∧
      ec.crescimento_prod_pct =
        (ec.produtividade_media_ton_h - ep.produtividade_media_ton_h) /
          ep.produtividade_media_ton_h * 100) :=
  ⟨fun e he => addGrowth_head_zero _ e he,
   fun i ep ec h0 h1 => addGrowth_pct_rel _ none i ep ec h0 h1⟩

/-- Witness for C7 on a two-month dataset: the first period's growth is 0
and the second period's growth is `(3 - 1) / 1 * 100` for both measures. -/
theorem c7_witness :
    ((⟨(2024, 1), 1, 1, 1, 1, 0, 0⟩ : MonthlyProd).crescimento_toneladas_pct = 0 ∧
      (⟨(2024, 1), 1, 1, 1, 1, 0, 0⟩ : MonthlyProd).crescimento_prod_pct = 0) ∧
    ((⟨(2024, 2), 3, 3, 1, 1, 200, 200⟩ : MonthlyProd).crescimento_toneladas_pct =
        (((⟨(2024, 2), 3, 3, 1, 1, 200, 200⟩ : MonthlyProd).toneladas_total -
          (⟨(2024, 1), 1, 1, 1, 1, 0, 0⟩ : MonthlyProd).toneladas_total) /
          (⟨(2024, 1), 1, 1, 1, 1, 0, 0⟩ : MonthlyProd).toneladas_total * 100) ∧
      (⟨(2024, 2), 3, 3, 1, 1, 200, 200⟩ : MonthlyProd).crescimento_prod_pct =
        (((⟨(2024, 2), 3, 3, 1, 1, 200, 200⟩ : MonthlyProd).produtividade_media_ton_h -
          (⟨(2024, 1), 1, 1, 1, 1, 0, 0⟩ : MonthlyProd).produtividade_media_ton_h) /
          (⟨(2024, 1), 1, 1, 1, 1, 0, 0⟩ : MonthlyProd).produtividade_media_ton_h * 100)) :=
  ⟨(c7_growth_formula c7rows).1 ⟨(2024, 1), 1, 1, 1, 1, 0, 0⟩
      (by with_unfolding_all rfl),
   (c7_growth_formula c7rows).2 0 ⟨(2024, 1), 1, 1, 1, 1, 0, 0⟩
      ⟨(2024, 2), 3, 3, 1, 1, 200, 200⟩
      (by with_unfolding_all rfl) (by with_unfolding_all rfl)⟩

/-! ### C9 — per-equipment daily productivity never divides by zero -/

/-- C9: every emitted (day, equipment) record has at least one operational
hour — each contributing cycle occupies a distinct hour bucket — so the
`horas_operacionais > 0` guard's else-branch (rate 0) is unreachable, and
whenever `horas_operacionais` were 0 both rates would be 0 rather than a
division fault. -/
theorem c9_equipment_hours_positive (df : List Row)
    (data_inicio data_fim : Option Timestamp)
    (frota_transporte : Option (List String)) (e : EquipEntry)
    (he : e ∈ get_processed_productivity_by_equipment df data_inicio data_fim
      frota_transporte) :
    1 ≤ e.horas_operacionais ∧
    (e.horas_operacionais = 0 →
      e.toneladas_por_hora = 0 ∧ e.ciclos_por_hora = 0) := by
  obtain ⟨k, hk, hfk⟩ := List.mem_map.mp he
  have hk2 : k ∈ ((equipmentFilter df data_inicio data_fim
      frota_transporte).map (fun r => (dataKey r, r.tagCarga.getD ""))).dedup :=
    mem_sortBy.mp hk
  obtain ⟨r, hr, hkr⟩ := List.mem_map.mp (List.mem_dedup.mp hk2)
  have hrf : r ∈ (equipmentFilter df data_inicio data_fim
      frota_transporte).filter
      (fun r' => (dataKey r', r'.tagCarga.getD "") = k) :=
    List.mem_filter.mpr ⟨hr, by simp [hkr]⟩
  have hhk : horaKey r ∈ (((equipmentFilter df data_inicio data_fim
      frota_transporte).filter
      (fun r' => (dataKey r', r'.tagCarga.getD "") = k)).map horaKey).dedup := by
    rw [List.mem_dedup]
    exact List.mem_map_of_mem horaKey hrf
  have hpos : 0 < (((equipmentFilter df data_inicio data_fim
      frota_transporte).filter
      (fun r' => (dataKey r', r'.tagCarga.getD "") = k)).map horaKey).dedup.length :=
    List.length_pos.mpr (List.ne_nil_of_mem hhk)
  have hfield : e.horas_operacionais =
      (((equipmentFilter df data_inicio data_fim frota_transporte).filter
        (fun r' => (dataKey r', r'.tagCarga.getD "") = k)).map
          horaKey).dedup.length := by
    rw [← hfk]
  refine ⟨by omega, fun h0 => absurd (hfield.symm.trans h0) (by omega)⟩

/-- Witness for C9: two cycles of one equipment in a single hour bucket
give a record with one operational hour. -/
theorem c9_witness :
    1 ≤ (⟨(2024, 1, 15), "E1", 3, 1, 3, 2, 2⟩ : EquipEntry).horas_operacionais :=
  (c9_equipment_hours_positive c9rows none none none
    ⟨(2024, 1, 15), "E1", 3, 1, 3, 2, 2⟩
    (by
      have hl : get_processed_productivity_by_equipment c9rows none none none =
          [⟨(2024, 1, 15), "E1", 3, 1, 3, 2, 2⟩] := by
        with_unfolding_all rfl
      rw [hl]
      exact List.mem_singleton.mpr rfl)).1

/-! ### C2 — two-pass top-N consolidation -/

/-- C2: consolidation labels are assigned from one global top-N set, so a
non-"Outros" category that appears in the output of some month appears,
labeled identically, in every month where it has rows; and on the spec
scenario (activity types A 500 kg, B 300 kg, C 100 kg with N = 2) the
output categories are exactly {A, B, "Outros"} with Outros total 100. -/
theorem c2_topn_consolidation :
    (∀ (cat : Row → String) (n : Nat) (rows : List Row) (c : String)
      (m1 m2 : Nat × Nat),
      c ≠ "Outros" →
      (∃ e ∈ consolidateTopN cat n rows, e.ano_mes = m1 ∧ e.categoria = c) →
      (∃ r ∈ rows, anoMesKey r = m2 ∧ cat r = c) →
      ∃ e ∈ consolidateTopN cat n rows, e.ano_mes = m2 ∧ e.categoria = c) ∧
    get_processed_production_by_activity_type c2rows none none none none =
      [⟨(2024, 1), "A", 500⟩, ⟨(2024, 1), "B", 300⟩,
        ⟨(2024, 1), "Outros", 100⟩] := by
  constructor
  · rintro cat n rows c m1 m2 hc ⟨e, he, _, hec⟩ ⟨r2, hr2, hm2, hc2⟩
    obtain ⟨k, hk, hfk⟩ := List.mem_map.mp he
    have hk2c : k.2 = c := by rw [← hfk] at hec; exact hec
    obtain ⟨r1, hr1, hkr1⟩ :=
      List.mem_map.mp (List.mem_dedup.mp (mem_sortBy.mp hk))
    have hlab : labelOf cat n rows r1 = c := by
      have : (anoMesKey r1, labelOf cat n rows r1).2 = k.2 := by rw [hkr1]
      simpa [hk2c] using this
    have htop : c ∈ topCategories cat n rows := by
      by_cases h : cat r1 ∈ topCategories cat n rows
      · have hlc : labelOf cat n rows r1 = cat r1 := if_pos h
        rw [hlc] at hlab
        exact hlab ▸ h
      · have hlc : labelOf cat n rows r1 = "Outros" := if_neg h
        rw [hlc] at hlab
        exact absurd hlab.symm hc
    have hlab2 : labelOf cat n rows r2 = c := by
      rw [labelOf, hc2, if_pos htop]
    have hkey2 : (m2, c) ∈
        (rows.map (fun r => (anoMesKey r, labelOf cat n rows r))).dedup := by
      rw [List.mem_dedup]
      exact List.mem_map.mpr ⟨r2, hr2, by rw [hm2, hlab2]⟩
    exact ⟨_, List.mem_map_of_mem _ (mem_sortBy.mpr hkey2), rfl, rfl⟩
  · with_unfolding_all rfl

/-- Witness for C2: the scenario output, and the stable-labeling property
instantiated on the scenario's category A. -/
theorem c2_witness :
    get_processed_production_by_activity_type c2rows none none none none =
      [⟨(2024, 1), "A", 500⟩, ⟨(2024, 1), "B", 300⟩,
        ⟨(2024, 1), "Outros", 100⟩] ∧
    ∃ e ∈ consolidateTopN (fun r => r.tipoAtividade.getD "") 2
        (activityFilter c2rows none none none none),
      e.ano_mes = (2024, 1) ∧ e.categoria = "A" := by
  refine ⟨c2_topn_consolidation.2, ?_⟩
  have hrows : activityFilter c2rows none none none none = c2rows := by
    with_unfolding_all rfl
  have hlist : consolidateTopN (fun r => r.tipoAtividade.getD "") 2
      (activityFilter c2rows none none none none) =
      [⟨(2024, 1), "A", 500⟩, ⟨(2024, 1), "B", 300⟩,
        ⟨(2024, 1), "Outros", 100⟩] := by
    with_unfolding_all rfl
  refine c2_topn_consolidation.1 (fun r => r.tipoAtividade.getD "") 2
    (activityFilter c2rows none none none none) "A" (2024, 1) (2024, 1)
    (by simp) ⟨⟨(2024, 1), "A", 500⟩, ?_, rfl, rfl⟩ ?_
  · rw [hlist]
    simp
  · refine ⟨mkRow (some ⟨2024, 1, 10, 8, 0⟩) (some "X") (some 500) (some "A"),
      ?_, rfl, rfl⟩
    rw [hrows]
    simp [c2rows]

/-! ### C6 — consolidation partitions each month's mass exactly once -/

/-- C6: for every category selector, every N and every month, the output
rows of a top-N consolidation for that month (its top-N categories plus
"Outros") carry mass totals that sum to the total mass of the filtered
input rows of that month before consolidation — every row is counted in
exactly one output category. -/
theorem c6_consolidation_mass_partition (cat : Row → String) (n : Nat)
    (rows : List Row) (m : Nat × Nat) :
    (((consolidateTopN cat n rows).filter (fun e => e.ano_mes = m)).map
        (fun e => e.massa_total)).sum
      = ((rows.filter (fun r => anoMesKey r = m)).map massaVal).sum := by
  have step1 : (consolidateTopN cat n rows).filter (fun e => e.ano_mes = m)
      = ((sortBy monthCatLe
            ((rows.map (fun r => (anoMesKey r, labelOf cat n rows r))).dedup)).filter
          (fun k => decide (k.1 = m))).map (fun k =>
            (⟨k.1, k.2,
              ((rows.filter
                  (fun r => (anoMesKey r, labelOf cat n rows r) = k)).map
                massaVal).sum⟩ : ProdEntry)) :=
    filter_of_map _ _ _
  rw [step1, List.map_map]
  show (List.map (fun k =>
      (List.map massaVal (List.filter
        (fun r => decide ((anoMesKey r, labelOf cat n rows r) = k)) rows)).sum)
      (List.filter (fun k => decide (k.1 = m))
        (sortBy monthCatLe
          (List.map (fun r => (anoMesKey r, labelOf cat n rows r))
            rows).dedup))).sum
    = (List.map massaVal
        (List.filter (fun r => decide (anoMesKey r = m)) rows)).sum
  have hperm := ((sortBy_perm monthCatLe
      ((rows.map (fun r => (anoMesKey r, labelOf cat n rows r))).dedup)).filter
        (fun k => decide (k.1 = m))).map (fun k =>
          ((rows.filter
              (fun r => (anoMesKey r, labelOf cat n rows r) = k)).map
            massaVal).sum)
  rw [hperm.sum_eq]
  have hfiber : ∀ k ∈ ((rows.map
        (fun r => (anoMesKey r, labelOf cat n rows r))).dedup).filter
        (fun k => decide (k.1 = m)),
      ((rows.filter (fun r => (anoMesKey r, labelOf cat n rows r) = k)).map
        massaVal).sum
        = (((rows.filter (fun r => anoMesKey r = m)).filter
            (fun r => labelOf cat n rows r = k.2)).map massaVal).sum := by
    intro k hk
    have hk1 : k.1 = m := by
      have := (List.mem_filter.mp hk).2
      simpa using this
    have hfe : rows.filter (fun r => (anoMesKey r, labelOf cat n rows r) = k)
        = (rows.filter (fun r => anoMesKey r = m)).filter
            (fun r => labelOf cat n rows r = k.2) := by
      rw [filter_filter_and]
      refine filter_congr_mem fun r _ => ?_
      simp [Prod.ext_iff, hk1]
    rw [hfe]
  rw [map_congr_mem hfiber]
  have hremap : (((rows.map
        (fun r => (anoMesKey r, labelOf cat n rows r))).dedup).filter
        (fun k => decide (k.1 = m))).map (fun k =>
          (((rows.filter (fun r => anoMesKey r = m)).filter
              (fun r => labelOf cat n rows r = k.2)).map massaVal).sum)
      = ((((rows.map
          (fun r => (anoMesKey r, labelOf cat n rows r))).dedup).filter
          (fun k => decide (k.1 = m))).map Prod.snd).map (fun c =>
            (((rows.filter (fun r => anoMesKey r = m)).filter
                (fun r => labelOf cat n rows r = c)).map massaVal).sum) := by
    rw [List.map_map]
    rfl
  rw [hremap]
  have hnd : (((rows.map
      (fun r => (anoMesKey r, labelOf cat n rows r))).dedup).filter
      (fun k => decide (k.1 = m))).Nodup :=
    (List.nodup_dedup _).filter _
  have hLnd : ((((rows.map
      (fun r => (anoMesKey r, labelOf cat n rows r))).dedup).filter
      (fun k => decide (k.1 = m))).map Prod.snd).Nodup := by
    refine List.Nodup.map_on ?_ hnd
    intro x hx y hy hxy
    have hx1 : x.1 = m := by simpa using (List.mem_filter.mp hx).2
    have hy1 : y.1 = m := by simpa using (List.mem_filter.mp hy).2
    exact Prod.ext (hx1.trans hy1.symm) hxy
  rw [sum_fibers_eq_filter_mem massaVal (fun r => labelOf cat n rows r)
    (rows.filter (fun r => anoMesKey r = m)) _ hLnd]
  have hcover : (rows.filter (fun r => anoMesKey r = m)).filter
      (fun r => decide (labelOf cat n rows r ∈ (((rows.map
        (fun r => (anoMesKey r, labelOf cat n rows r))).dedup).filter
        (fun k => decide (k.1 = m))).map Prod.snd))
      = rows.filter (fun r => anoMesKey r = m) := by
    refine filter_all_true fun r hr => ?_
    have hrr := List.mem_filter.mp hr
    have hm : anoMesKey r = m := by simpa using hrr.2
    have hkK : (anoMesKey r, labelOf cat n rows r) ∈
        (rows.map (fun r => (anoMesKey r, labelOf cat n rows r))).dedup :=
      List.mem_dedup.mpr (List.mem_map_of_mem _ hrr.1)
    have hkKm : (anoMesKey r, labelOf cat n rows r) ∈
        ((rows.map (fun r => (anoMesKey r, labelOf cat n rows r))).dedup).filter
          (fun k => decide (k.1 = m)) :=
      List.mem_filter.mpr ⟨hkK, by simp [hm]⟩
    simpa using
      List.mem_map_of_mem Prod.snd hkKm
  rw [hcover]

/-! ### C1 — monthly productivity as aggregate of daily averages -/

theorem if_pos_zero_flip (L : Nat) (T : ℚ) :
    (if L > 0 then T / (L : ℚ) else 0) = (if L = 0 then 0 else T / (L : ℚ)) := by
  rcases Nat.eq_zero_or_pos L with hL | hL
  · simp [hL]
  · simp [hL, Nat.pos_iff_ne_zero.mp hL]

/-- Each daily record carries the rounded mass sum in tonnes, the distinct
hour-bucket count of its day, and the rounded daily rate. -/
theorem dailyProductivity_fields (rows : List Row) (dp : DailyProd)
    (hdp : dp ∈ dailyProductivity rows) :
    dp.total_toneladas =
      rnd2 ((((rows.filter (fun r => dataKey r = dp.data)).map massaVal).sum) / 1000) ∧
    dp.horas_operacionais =
      (((rows.filter (fun r => dataKey r = dp.data)).map horaKey).dedup).length ∧
    dp.produtividade_ton_h =
      rnd2 (if dp.horas_operacionais = 0 then 0
        else ((((rows.filter (fun r => dataKey r = dp.data)).map massaVal).sum) / 1000) /
          (dp.horas_operacionais : ℚ)) := by
  obtain ⟨d, hd, hfd⟩ := List.mem_map.mp hdp
  rw [← hfd]
  exact ⟨rfl, rfl, congrArg rnd2 (if_pos_zero_flip _ _)⟩

/-- Every row's calendar day is represented by a daily record. -/
theorem dailyProductivity_covers (rows : List Row) (r : Row) (hr : r ∈ rows) :
    ∃ dp ∈ dailyProductivity rows, dp.data = dataKey r :=
  ⟨_, List.mem_map_of_mem _
      (mem_sortBy.mpr (List.mem_dedup.mpr (List.mem_map_of_mem dataKey hr))),
    rfl⟩

theorem addGrowth_mem_fields :
    ∀ (l : List MonthlyProd) (p : Option MonthlyProd) (e : MonthlyProd),
      e ∈ addGrowth p l →
      ∃ x ∈ l, x.ano_mes = e.ano_mes ∧ x.toneladas_total = e.toneladas_total ∧
        x.produtividade_media_ton_h = e.produtividade_media_ton_h := by
  intro l
  induction l with
  | nil =>
    intro p e he
    cases p <;> simp [addGrowth] at he
  | cons x xs ih =>
    intro p e he
    cases p with
    | none =>
      rcases List.mem_cons.mp he with h | h
      · exact ⟨x, by simp, by rw [h], by rw [h], by rw [h]⟩
      · obtain ⟨y, hy, hfs⟩ := ih (some x) e h
        exact ⟨y, by simp [hy], hfs⟩
    | some q =>
      rcases List.mem_cons.mp he with h | h
      · exact ⟨x, by simp, by rw [h], by rw [h], by rw [h]⟩
      · obtain ⟨y, hy, hfs⟩ := ih (some x) e h
        exact ⟨y, by simp [hy], hfs⟩

theorem monthlyBase_fields (daily : List DailyProd) (x : MonthlyProd)
    (hx : x ∈ monthlyBase daily) :
    x.toneladas_total = rnd2 (((daily.filter
        (fun dp => dp.anoMes = x.ano_mes)).map
        (fun dp => dp.total_toneladas)).sum) ∧
    x.produtividade_media_ton_h = rnd2 ((((daily.filter
        (fun dp => dp.anoMes = x.ano_mes)).map
        (fun dp => dp.produtividade_ton_h)).sum) /
        (((daily.filter (fun dp => dp.anoMes = x.ano_mes)).length : ℚ))) := by
  obtain ⟨m, hm, hfm⟩ := List.mem_map.mp hx
  rw [← hfm]
  exact ⟨rfl, rfl⟩

/-- C1 (amended): per day the aggregation computes
`rnd2((sum Massa)/1000)` tonnes, the distinct-hour-bucket count, and the
daily rate `rnd2(tonnes/hours)` (0 when hours is 0); per month the tonnes
total is the exact sum of the daily (rounded) tonnes and the average is
`rnd2` of the arithmetic mean of the daily rates. The spec scenario holds
exactly, and a two-day instance shows the monthly average is the mean of
daily rates, not monthly tonnes over monthly hours. -/
theorem c1_monthly_productivity_amended :
    (∀ (rows : List Row) (dp : DailyProd), dp ∈ dailyProductivity rows →
      dp.total_toneladas =
        rnd2 ((((rows.filter (fun r => dataKey r = dp.data)).map massaVal).sum) / 1000) ∧
      dp.horas_operacionais =
        (((rows.filter (fun r => dataKey r = dp.data)).map horaKey).dedup).length ∧
      dp.produtividade_ton_h =
        rnd2 (if dp.horas_operacionais = 0 then 0
          else ((((rows.filter (fun r => dataKey r = dp.data)).map massaVal).sum) / 1000) /
            (dp.horas_operacionais : ℚ))) ∧
    (∀ (rows : List Row) (r : Row), r ∈ rows →
      ∃ dp ∈ dailyProductivity rows, dp.data = dataKey r) ∧
    (∀ (rows : List Row) (e : MonthlyProd), e ∈ productivityAnalysisCore rows →
      e.toneladas_total = (((dailyProductivity rows).filter
          (fun dp => dp.anoMes = e.ano_mes)).map
          (fun dp => dp.total_toneladas)).sum ∧
      e.produtividade_media_ton_h = rnd2 ((((dailyProductivity rows).filter
          (fun dp => dp.anoMes = e.ano_mes)).map
          (fun dp => dp.produtividade_ton_h)).sum /
          ((((dailyProductivity rows).filter
            (fun dp => dp.anoMes = e.ano_mes)).length : ℚ)))) ∧
    get_processed_productivity_analysis c1rows none none none none =
      [⟨(2024, 1), 6, 3, 2, 3, 0, 0⟩] ∧
    (get_processed_productivity_analysis c1twoDays none none none none =
        [⟨(2024, 1), 10, 9 / 2, 3, 3, 0, 0⟩] ∧
      rnd2 ((10 : ℚ) / 3) = 333 / 100 ∧ (9 : ℚ) / 2 ≠ 333 / 100) := by
  refine ⟨dailyProductivity_fields, dailyProductivity_covers, ?_, ?_, ?_, ?_, ?_⟩
  · intro rows e he
    obtain ⟨x, hx, hxm, hxt, hxp⟩ := addGrowth_mem_fields _ none e he
    obtain ⟨ht, hp⟩ := monthlyBase_fields _ x hx
    constructor
    · have hsum : ∀ q ∈ ((dailyProductivity rows).filter
          (fun dp => dp.anoMes = e.ano_mes)).map
          (fun dp => dp.total_toneladas), IsCenti q := by
        intro q hq
        obtain ⟨dp, hdpf, hdq⟩ := List.mem_map.mp hq
        have hdp : dp ∈ dailyProductivity rows := (List.mem_filter.mp hdpf).1
        rw [← hdq, (dailyProductivity_fields rows dp hdp).1]
        exact rnd2_isCenti _
      rw [← hxt, ht, hxm]
      exact rnd2_of_isCenti (isCenti_sum hsum)
    · rw [← hxp, hp, hxm]
  · with_unfolding_all rfl
  · with_unfolding_all rfl
  · with_unfolding_all rfl
  · norm_num

/-- Counterexample to C1 as stated: a single 1 kg row. The claim's exact
daily/monthly tonnage is 0.001 t, but the aggregation reports 0 for both
the tonnes total and the average rate, because daily values are rounded
to 2 decimals before monthly aggregation. -/
theorem c1_rounding_counterexample :
    (get_processed_productivity_analysis [c1tinyRow] none none none none).map
        (fun e => (e.toneladas_total, e.produtividade_media_ton_h)) =
      [(0, 0)] ∧
    ((([c1tinyRow].filter (fun r => dataKey r = (2024, 1, 15))).map
        massaVal).sum) / 1000 = 1 / 1000 ∧
    (0 : ℚ) ≠ 1 / 1000 :=
  ⟨by with_unfolding_all rfl, by with_unfolding_all rfl, by norm_num⟩

/-- Witness for C1 on the spec scenario's single day record. -/
theorem c1_witness :
    (⟨(2024, 1, 15), (2024, 1), 6, 2, 3, 3⟩ : DailyProd).total_toneladas =
      rnd2 ((((c1rows.filter (fun r => dataKey r = (2024, 1, 15))).map
        massaVal).sum) / 1000) := by
  have hl : dailyProductivity c1rows =
      [⟨(2024, 1, 15), (2024, 1), 6, 2, 3, 3⟩] := by
    with_unfolding_all rfl
  have hmem : (⟨(2024, 1, 15), (2024, 1), 6, 2, 3, 3⟩ : DailyProd) ∈
      dailyProductivity c1rows := by
    rw [hl]
    exact List.mem_singleton.mpr rfl
  exact (c1_monthly_productivity_amended.1 c1rows _ hmem).1

/-! ### C10 — service-layer productivity uses a constant 720 h month -/

theorem serviceGrowth_mem :
    ∀ (l : List ((Nat × Nat) × ℚ)) (p : Option ℚ) (e : ServiceProdEntry),
      e ∈ serviceGrowth p l →
      e.horas_trabalhadas = 24 * 30 ∧
      e.produtividade_media_ton_h = e.toneladas_total / (24 * 30) := by
  intro l
  induction l with
  | nil =>
    intro p e he
    simp [serviceGrowth] at he
  | cons hd rest ih =>
    intro p e he
    obtain ⟨m, massa⟩ := hd
    rcases List.mem_cons.mp he with h | h
    · rw [h]
      exact ⟨rfl, rfl⟩
    · exact ih (some massa) e h

/-- C10: every record of the service-layer monthly productivity carries
`horas_trabalhadas = 24 × 30 = 720` and a rate of monthly tonnes divided
by 720, independent of timestamp hour density; on a 720 000 kg single-hour
dataset the service reports 1 t/h while the legacy aggregation, which
counts distinct hour buckets, reports 720 t/h. -/
theorem c10_service_productivity :
    (∀ (df : List Row) (fs : DateRangeDTO) (e : ServiceProdEntry),
      e ∈ get_productivity_analysis df fs →
      e.horas_trabalhadas = 24 * 30 ∧
      e.produtividade_media_ton_h = e.toneladas_total / (24 * 30)) ∧
    (get_productivity_analysis [c10row] emptyFilter).map
        (fun e => e.produtividade_media_ton_h) = [1] ∧
    (get_processed_productivity_analysis [c10row] none none none none).map
        (fun e => e.produtividade_media_ton_h) = [720] ∧
    (1 : ℚ) ≠ 720 :=
  ⟨fun df fs e he => serviceGrowth_mem _ none e he,
   by with_unfolding_all rfl,
   by with_unfolding_all rfl,
   by norm_num⟩

/-- Witness for C10 on the 720 000 kg dataset. -/
theorem c10_witness :
    (⟨(2024, 1), 720, 1, 0, 720⟩ : ServiceProdEntry).horas_trabalhadas = 24 * 30 ∧
    (⟨(2024, 1), 720, 1, 0, 720⟩ : ServiceProdEntry).produtividade_media_ton_h =
      (⟨(2024, 1), 720, 1, 0, 720⟩ : ServiceProdEntry).toneladas_total /
        (24 * 30) := by
  have hl : get_productivity_analysis [c10row] emptyFilter =
      [⟨(2024, 1), 720, 1, 0, 720⟩] := by
    with_unfolding_all rfl
  exact c10_service_productivity.1 [c10row] emptyFilter _
    (by rw [hl]; exact List.mem_singleton.mpr rfl)
